import Mathlib

/-!
Shallow embedding of `packages/cdktf-cli/lib/checkpoint.ts`: the telemetry
reporter of the cdktf CLI.  JavaScript strings-or-undefined values are
modelled as `Option String` (with JS truthiness made explicit), the identity
files on disk as a map from paths to parsed-or-not contents, and the effectful
pipeline (`getId`, `ReportRequest`, `sendTelemetry`) as explicit state-passing
functions that also return the trace of I/O events they perform.  Promise
resolution/rejection is `Except.ok` / `Except.error`.
-/

namespace Checkpoint

/-- Truthiness of a JS value that is either a string or undefined:
`undefined` and the empty string are falsy, every other string is truthy. -/
def truthy : Option String → Bool
  | none => false
  | some s => !(s == "")

/-- A parsed JSON object with string-valued fields, kept as an association
list in property order. -/
abbrev JsonObj := List (String × String)

/-- Property read `o[k]`: the first binding of `k`, if any. -/
def lookup : JsonObj → String → Option String
  | [], _ => none
  | (k2, v) :: rest, k => if k2 = k then some v else lookup rest k

/-- JS object property assignment `o[k] = v` (also the effect of
`{ ...o, [k]: v }`): if `k` is already a property its value is overwritten in
place, otherwise the property is appended. -/
def setKey (o : JsonObj) (k v : String) : JsonObj :=
  if o.any (fun p => p.1 == k) then
    o.map (fun p => if p.1 == k then (k, v) else p)
  else o ++ [(k, v)]

/-- `explanatoryComment.replaceAll("\n", " ")`: newlines become spaces. -/
def replaceNewlines (s : String) : String :=
  String.mk (s.data.map (fun c => if c = '\n' then ' ' else c))

/-- Lowercase hexadecimal digit character for `n < 16` (0-9 then a-f). -/
def hexDigit (n : Nat) : Char :=
  if n < 10 then Char.ofNat (48 + n) else Char.ofNat (87 + n)

/-- A byte rendered as two lowercase hex characters. -/
def byteToHex (b : Nat) : List Char := [hexDigit (b / 16), hexDigit (b % 16)]

/-- Modelled from the `uuid` package's `v4()` (an external dependency of
`checkpoint.ts`, per RFC 4122): 16 random bytes, with byte 6 masked to
`(b & 0x0f) | 0x40` and byte 8 to `(b & 0x3f) | 0x80`, rendered as lowercase
hex in the 8-4-4-4-12 layout. -/
def uuidv4 (rnd : Fin 16 → Nat) : String :=
  let b : Fin 16 → Nat := fun i => rnd i % 256
  String.mk
    (byteToHex (b 0) ++ byteToHex (b 1) ++ byteToHex (b 2) ++ byteToHex (b 3) ++
     ['-'] ++ byteToHex (b 4) ++ byteToHex (b 5) ++
     ['-'] ++ byteToHex (b 6 % 16 + 64) ++ byteToHex (b 7) ++
     ['-'] ++ byteToHex (b 8 % 64 + 128) ++ byteToHex (b 9) ++
     ['-'] ++ byteToHex (b 10) ++ byteToHex (b 11) ++ byteToHex (b 12) ++
     byteToHex (b 13) ++ byteToHex (b 14) ++ byteToHex (b 15))

/-- Lowercase hex character test. -/
def isHexLower (c : Char) : Bool :=
  (48 ≤ c.toNat && c.toNat ≤ 57) || (97 ≤ c.toNat && c.toNat ≤ 102)

/-- Version-4 UUID syntax: 36 characters in the 8-4-4-4-12 hex layout with
dashes at positions 8, 13, 18, 23, the character `4` at position 14 and a
variant character in 8-b at position 19. -/
def isUuidV4Syntax (s : String) : Bool :=
  match s.data with
  | h1 :: h2 :: h3 :: h4 :: h5 :: h6 :: h7 :: h8 :: d1 :: h9 :: h10 :: h11 ::
    h12 :: d2 :: v :: h13 :: h14 :: h15 :: d3 :: y :: h16 :: h17 :: h18 ::
    d4 :: h19 :: h20 :: h21 :: h22 :: h23 :: h24 :: h25 :: h26 :: h27 ::
    h28 :: h29 :: h30 :: [] =>
    ([h1, h2, h3, h4, h5, h6, h7, h8, h9, h10, h11, h12, h13, h14, h15, h16,
      h17, h18, h19, h20, h21, h22, h23, h24, h25, h26, h27, h28, h29,
      h30].all isHexLower) &&
    (d1 == '-') && (d2 == '-') && (d3 == '-') && (d4 == '-') &&
    (v == '4') && (y == '8' || y == '9' || y == 'a' || y == 'b')
  | _ => false

/-- What `require(filePath)` finds at a path: no file, a file that does not
parse as a JSON object, or a parsed object. -/
inductive FileContent where
  | missing
  | unparseable
  | obj (o : JsonObj)
deriving DecidableEq, Repr

/-- The file-system state seen by the identity store: the content at each
path, and whether `fs.writeFileSync` at a path throws (with which message). -/
structure World where
  files : String → FileContent
  writeError : String → Option String

/-- Overwrite the content at one path. -/
def World.setFile (w : World) (p : String) (c : FileContent) : World :=
  { w with files := fun q => if q = p then c else w.files q }

/-- The telemetry report record (interface `ReportParams`).  `Date` and free
`any` values are modelled as strings; a missing (undefined) field is `none`.
JS serialization omits fields that are `none`. -/
structure ReportParams where
  dateTime : Option String := none
  arch : Option String := none
  os : Option String := none
  payload : List (String × String)
  product : String
  runID : Option String := none
  version : Option String := none
  command : Option String := none
  language : Option String := none
  userId : Option String := none
  ci : Option String := none
  projectId : Option String := none
deriving DecidableEq, Repr

/-- Observable I/O events of the pipeline, in order: a `require` read attempt,
a `fs.writeFileSync`, the HTTPS POST (with the finalized record it carries),
a `processLoggerError` call, a `logger.error` call. -/
inductive Event where
  | fileRead (path : String)
  | fileWrite (path : String)
  | netPost (url : String) (body : ReportParams)
  | procError (msg : String)
  | logError (msg : String)
deriving DecidableEq, Repr

/-- The keys present in `JSON.stringify(reportParams)`: all fields whose value
is defined (`payload` and `product` are always present). -/
def presentKeys (p : ReportParams) : List String :=
  (if p.dateTime.isSome then ["dateTime"] else []) ++
  (if p.arch.isSome then ["arch"] else []) ++
  (if p.os.isSome then ["os"] else []) ++
  ["payload", "product"] ++
  (if p.runID.isSome then ["runID"] else []) ++
  (if p.version.isSome then ["version"] else []) ++
  (if p.command.isSome then ["command"] else []) ++
  (if p.language.isSome then ["language"] else []) ++
  (if p.userId.isSome then ["userId"] else []) ++
  (if p.ci.isSome then ["ci"] else []) ++
  (if p.projectId.isSome then ["projectId"] else [])

/-- `getId(filePath, key, explanatoryComment?)`: always draws a fresh UUID,
builds the candidate `_idFile` object (`"//"` comment first when the comment
is truthy, newlines replaced by spaces), then: if `require(filePath)` fails,
writes `_idFile` and returns the fresh UUID; if the parsed object has a truthy
value at `key`, returns it without writing; otherwise merges
`{ ...jsonFile, [key]: _uuid }`, writes, and returns the fresh UUID.  A
throwing `writeFileSync` propagates as `Except.error`. -/
def getId (w : World) (rnd : Fin 16 → Nat) (filePath key : String)
    (explanatoryComment : Option String) :
    Except String String × World × List Event :=
  let _uuid := uuidv4 rnd
  let commentPart : JsonObj :=
    if truthy explanatoryComment then
      [("//", replaceNewlines (explanatoryComment.getD ""))]
    else []
  let _idFile : JsonObj := setKey commentPart key _uuid
  match w.files filePath with
  | FileContent.missing =>
    match w.writeError filePath with
    | some e => (Except.error e, w, [Event.fileRead filePath])
    | none =>
      (Except.ok _uuid, w.setFile filePath (FileContent.obj _idFile),
       [Event.fileRead filePath, Event.fileWrite filePath])
  | FileContent.unparseable =>
    match w.writeError filePath with
    | some e => (Except.error e, w, [Event.fileRead filePath])
    | none =>
      (Except.ok _uuid, w.setFile filePath (FileContent.obj _idFile),
       [Event.fileRead filePath, Event.fileWrite filePath])
  | FileContent.obj jsonFile =>
    if truthy (lookup jsonFile key) then
      (Except.ok ((lookup jsonFile key).getD ""), w, [Event.fileRead filePath])
    else
      match w.writeError filePath with
      | some e => (Except.error e, w, [Event.fileRead filePath])
      | none =>
        (Except.ok _uuid,
         w.setFile filePath (FileContent.obj (setKey jsonFile key _uuid)),
         [Event.fileRead filePath, Event.fileWrite filePath])

/-- The fixed explanatory comment written next to `userId` (the multi-line
template literal in `getUserId`). -/
def userIdComment : String :=
  "This signature is a randomly generated UUID used to anonymously differentiate users in telemetry data order to inform product direction. \nThis signature is random, it is not based on any personally identifiable information. \nTo create a new signature, you can simply delete this file at any time.\nSee https://github.com/hashicorp/terraform-cdk/blob/main/docs/working-with-cdk-for-terraform/telemetry.md for more\ninformation on how to disable it."

/-- `getUserId()`: user-scoped identifier in `<homedir>/.cdktf/config.json`
under key `userId`, with the fixed explanatory comment. -/
def getUserId (w : World) (rnd : Fin 16 → Nat) (homedir : String) :
    Except String String × World × List Event :=
  getId w rnd (homedir ++ "/.cdktf/config.json") "userId" (some userIdComment)

/-- `getProjectId(projectPath = process.cwd())`: project-scoped identifier in
`<projectPath>/cdktf.json` under key `projectId`, no comment. -/
def getProjectId (w : World) (rnd : Fin 16 → Nat) (projectPath : String) :
    Except String String × World × List Event :=
  getId w rnd (projectPath ++ "/cdktf.json") "projectId" none

def BASE_URL : String := "https://checkpoint-api.hashicorp.com/v1/"

def VALID_STATUS_CODES : List Nat := [200, 201]

/-- Ambient inputs of one `ReportRequest` run: the `CHECKPOINT_DISABLE`
environment variable, the `ciDetect()` result (`none` for `false`), clock,
host strings, the random bytes consumed by successive `uuidv4()` calls, the
version string, and the outcome of the single `post` attempt. -/
structure RRContext where
  checkpointDisable : Option String
  ciDetect : Option String
  now : String
  hostArch : String
  hostPlatform : String
  homedir : String
  cwd : String
  rnd : Nat → Fin 16 → Nat
  versionNumber : String
  transport : Except String Unit

/-- Statement `if (!reportParams.runID) { reportParams.runID = uuidv4(); }`.
Also returns how many `uuidv4()` calls have been consumed (0 or 1), which
selects the random bytes the later identity-store calls draw. -/
def rrDefaultRunID (ctx : RRContext) (p : ReportParams) : ReportParams × Nat :=
  if truthy p.runID then (p, 0)
  else ({ p with runID := some (uuidv4 (ctx.rnd 0)) }, 1)

/-- Statement `if (!reportParams.dateTime) { reportParams.dateTime = new Date(); }`
(a `Date` object is always truthy, so only `undefined` is replaced). -/
def rrDefaultDateTime (ctx : RRContext) (p : ReportParams) : ReportParams :=
  if p.dateTime.isSome then p else { p with dateTime := some ctx.now }

/-- Statement `if (!reportParams.arch) { reportParams.arch = os.arch(); }`. -/
def rrDefaultArch (ctx : RRContext) (p : ReportParams) : ReportParams :=
  if truthy p.arch then p else { p with arch := some ctx.hostArch }

/-- Statement `if (!reportParams.os) { reportParams.os = os.platform(); }`. -/
def rrDefaultOs (ctx : RRContext) (p : ReportParams) : ReportParams :=
  if truthy p.os then p else { p with os := some ctx.hostPlatform }

/-- Statement `if (!reportParams.userId && !ci) { reportParams.userId = getUserId(); }`
with `ci = ciDetect()`; `n` counts the `uuidv4()` calls made so far.  A throw
from `getUserId` leaves `userId` unassigned and propagates as `Except.error`. -/
def rrFillUserId (ctx : RRContext) (w : World) (p : ReportParams) (n : Nat) :
    Except String ReportParams × World × List Event × Nat :=
  if !truthy p.userId && !truthy ctx.ciDetect then
    match getUserId w (ctx.rnd n) ctx.homedir with
    | (Except.ok v, w2, evs) =>
      (Except.ok { p with userId := some v }, w2, evs, n + 1)
    | (Except.error e, w2, evs) => (Except.error e, w2, evs, n + 1)
  else (Except.ok p, w, [], n)

/-- Statement `if (ci) { reportParams.ci = ci; }`. -/
def rrSetCi (ctx : RRContext) (p : ReportParams) : ReportParams :=
  if truthy ctx.ciDetect then { p with ci := ctx.ciDetect } else p

/-- Statement `reportParams.projectId = reportParams.projectId || getProjectId();`:
a truthy `projectId` is reassigned to itself, a falsy one is replaced by the
`getProjectId()` result (whose throw propagates). -/
def rrFillProjectId (ctx : RRContext) (w : World) (p : ReportParams) (n : Nat) :
    Except String ReportParams × World × List Event :=
  if truthy p.projectId then (Except.ok p, w, [])
  else
    match getProjectId w (ctx.rnd n) ctx.cwd with
    | (Except.ok v, w2, evs) => (Except.ok { p with projectId := some v }, w2, evs)
    | (Except.error e, w2, evs) => (Except.error e, w2, evs)

/-- The final statements: `postData = JSON.stringify(reportParams)` and
`try { await post(BASE_URL + "telemetry/" + product, postData) }
catch (e) { processLoggerError(e.message) }` — the transport attempt always
happens and its rejection is converted into a `procError` log event. -/
def rrPost (ctx : RRContext) (w : World) (p : ReportParams) (evs : List Event) :
    Except String Unit × ReportParams × World × List Event :=
  match ctx.transport with
  | Except.ok _ =>
    (Except.ok (), p, w,
     evs ++ [Event.netPost (BASE_URL ++ "telemetry/" ++ p.product) p])
  | Except.error e =>
    (Except.ok (), p, w,
     evs ++ [Event.netPost (BASE_URL ++ "telemetry/" ++ p.product) p,
             Event.procError e])

/-- `ReportRequest(reportParams)`: returns immediately when
`CHECKPOINT_DISABLE` is truthy; otherwise runs the defaulting statements in
source order (`runID`, `dateTime`, `arch`, `os`, CI detection, `userId`,
`ci`, `projectId`) and then the guarded `post`.  Errors thrown by the
identity store are not caught here and reject the promise with the record as
mutated so far.  The result is (promise outcome, record, file system, event
trace). -/
def ReportRequest (ctx : RRContext) (w : World) (reportParams : ReportParams) :
    Except String Unit × ReportParams × World × List Event :=
  if truthy ctx.checkpointDisable then (Except.ok (), reportParams, w, [])
  else
    let s1 := rrDefaultRunID ctx reportParams
    let p4 := rrDefaultOs ctx (rrDefaultArch ctx (rrDefaultDateTime ctx s1.1))
    match rrFillUserId ctx w p4 s1.2 with
    | (Except.error e, w5, evs5, _) => (Except.error e, p4, w5, evs5)
    | (Except.ok p5, w5, evs5, n5) =>
      let p6 := rrSetCi ctx p5
      match rrFillProjectId ctx w5 p6 n5 with
      | (Except.error e, w7, evs7) => (Except.error e, p6, w7, evs5 ++ evs7)
      | (Except.ok p7, w7, evs7) => rrPost ctx w7 p7 (evs5 ++ evs7)

/-- The record `sendTelemetry` hands to `ReportRequest`: fixed product
`cdktf`, the given command, `versionNumber()`, `new Date()`, the payload and
its `language` property. -/
def initialReportParams (ctx : RRContext) (command : String)
    (payload : List (String × String)) : ReportParams :=
  { command := some command
    product := "cdktf"
    version := some ctx.versionNumber
    dateTime := some ctx.now
    language := lookup payload "language"
    payload := payload }

/-- `sendTelemetry(command, payload)`: builds the record, awaits
`ReportRequest`, and catches any rejection with
`logger.error("Could not send telemetry data: " + err)`. -/
def sendTelemetry (ctx : RRContext) (w : World) (command : String)
    (payload : List (String × String)) :
    Except String Unit × ReportParams × World × List Event :=
  match ReportRequest ctx w (initialReportParams ctx command payload) with
  | (Except.ok _, p, w2, evs) => (Except.ok (), p, w2, evs)
  | (Except.error e, p, w2, evs) =>
    (Except.ok (), p, w2,
     evs ++ [Event.logError ("Could not send telemetry data: " ++ e)])

/-- How the body of a `post` response terminates: an `end` event or an
`error` event. -/
inductive BodyOutcome where
  | ended
  | errored (msg : String)
deriving DecidableEq, Repr

/-- A `post` response: `res.statusCode` (which may be undefined, and may be
`0` and hence falsy), `res.statusMessage`, and the body outcome. -/
structure HttpResponse where
  statusCode : Option Nat
  statusMessage : String
  body : BodyOutcome
deriving DecidableEq, Repr

/-- The first thing that settles the `post` promise: a response callback, the
1000 ms socket timeout, or a request error event. -/
inductive TransportOutcome where
  | response (r : HttpResponse)
  | timeout
  | reqError (msg : String)
deriving DecidableEq, Repr

/-- Draining the response body: `error` rejects, `end` resolves. -/
def bodyResult : BodyOutcome → Except String Unit
  | BodyOutcome.ended => Except.ok ()
  | BodyOutcome.errored m => Except.error m

/-- How `post` settles: on timeout it rejects with `request timeout`; on a
request error it rejects with that error; on a response it rejects with
`res.statusMessage` only when `res.statusCode` is truthy (defined and
nonzero) and outside `VALID_STATUS_CODES`, and otherwise settles from the
body events. -/
def postSettle : TransportOutcome → Except String Unit
  | TransportOutcome.timeout => Except.error "request timeout"
  | TransportOutcome.reqError m => Except.error m
  | TransportOutcome.response r =>
    match r.statusCode with
    | some sc =>
      if sc = 0 then bodyResult r.body
      else if sc ∈ VALID_STATUS_CODES then bodyResult r.body
      else Except.error r.statusMessage
    | none => bodyResult r.body

/-- The milliseconds argument of `req.setTimeout`. -/
def POST_TIMEOUT_MS : Nat := 1000

/-- What the `req.setTimeout` callback in `post` does: its body is exactly
`ko(new Error("request timeout"))` — it rejects the promise, and contains no
`req.destroy()` / `req.abort()` call. -/
structure TimeoutCallbackActions where
  rejectsWithTimeoutError : Bool
  destroysRequest : Bool
deriving DecidableEq, Repr

def postTimeoutCallback : TimeoutCallbackActions :=
  { rejectsWithTimeoutError := true, destroysRequest := false }

/-- A JS string as its sequence of Unicode code points. -/
abbrev JSString := List Nat

/-- JS `string.length`: the number of UTF-16 code units. -/
def utf16Length (s : JSString) : Nat :=
  (s.map (fun cp => if cp < 65536 then 1 else 2)).sum

/-- The number of bytes of the UTF-8 encoding (what `req.write` sends). -/
def utf8ByteLength (s : JSString) : Nat :=
  (s.map (fun cp =>
    if cp < 128 then 1 else if cp < 2048 then 2
    else if cp < 65536 then 3 else 4)).sum

/-- The fixed headers of the single POST request in `post`, for a given body
string: `Accept`, `Content-Length: data.length`, `User-Agent`. -/
structure PostHeaders where
  accept : String
  contentLength : Nat
  userAgent : String
deriving DecidableEq, Repr

def postHeaders (data : JSString) : PostHeaders :=
  { accept := "application/json"
    contentLength := utf16Length data
    userAgent := "HashiCorp/cdktf-cli" }

/-- A file system with no files and no write failures. -/
def emptyWorld : World :=
  { files := fun _ => FileContent.missing, writeError := fun _ => none }

/-- A deterministic all-zero random-byte source. -/
def zeroBytes : Fin 16 → Nat := fun _ => 0

def zeroRnd : Nat → Fin 16 → Nat := fun _ => zeroBytes

/-- A concrete non-CI context with telemetry enabled and a succeeding
transport. -/
def sampleCtx : RRContext :=
  { checkpointDisable := none
    ciDetect := none
    now := "2024-01-01T00:00:00.000Z"
    hostArch := "x64"
    hostPlatform := "linux"
    homedir := "/home/user"
    cwd := "/project"
    rnd := zeroRnd
    versionNumber := "0.0.0"
    transport := Except.ok () }

def sampleParams : ReportParams :=
  initialReportParams sampleCtx "diff" [("language", "typescript")]

/-- `sampleCtx` with `CHECKPOINT_DISABLE=1`. -/
def disabledCtx : RRContext := { sampleCtx with checkpointDisable := some "1" }

/-- `sampleCtx` running under a detected CI system. -/
def ciCtx : RRContext := { sampleCtx with ciDetect := some "github-actions" }

/-- A world where writing the user identity file throws. -/
def failWorld : World :=
  { files := fun _ => FileContent.missing
    writeError := fun q =>
      if q = "/home/user/.cdktf/config.json" then
        some "EACCES: permission denied"
      else none }

/-- A world whose project file exists with an unrelated field and an
empty-string `projectId`. -/
def staleWorld : World :=
  { files := fun q =>
      if q = "/project/cdktf.json" then
        FileContent.obj [("app", "x"), ("projectId", "")]
      else FileContent.missing
    writeError := fun _ => none }

/-- `sampleCtx` whose single transport attempt fails (e.g. status 500). -/
def errCtx : RRContext :=
  { sampleCtx with transport := Except.error "Internal Server Error" }

/-- A record entering `ReportRequest` with every defaultable field already
populated with a truthy value. -/
def fullParams : ReportParams :=
  { sampleParams with
    runID := some "run-1"
    arch := some "arm64"
    os := some "darwin"
    userId := some "user-1"
    projectId := some "proj-1" }

end Checkpoint

namespace Checkpoint

theorem hexDigit_hexLower : ∀ n, n < 16 → isHexLower (hexDigit n) = true := by decide

theorem isHexLower_hexDigit_mod16 (x : Nat) : isHexLower (hexDigit (x % 16)) = true :=
  hexDigit_hexLower _ (Nat.mod_lt _ (by omega))

theorem isHexLower_hexDigit_div (x : Nat) : isHexLower (hexDigit (x % 256 / 16)) = true :=
  hexDigit_hexLower _ (by omega)

theorem version_hexDigit (x : Nat) : hexDigit ((x % 16 + 64) / 16) = '4' := by
  have h : (x % 16 + 64) / 16 = 4 := by omega
  rw [h]; rfl

theorem variant_hexDigit (x : Nat) :
    (hexDigit ((x % 64 + 128) / 16) == '8' || hexDigit ((x % 64 + 128) / 16) == '9' ||
     hexDigit ((x % 64 + 128) / 16) == 'a' || hexDigit ((x % 64 + 128) / 16) == 'b') = true := by
  have h8 : 8 ≤ (x % 64 + 128) / 16 := by omega
  have h11 : (x % 64 + 128) / 16 ≤ 11 := by omega
  set q := (x % 64 + 128) / 16 with hq
  interval_cases q <;> rfl

/-- Any output of the modelled `uuidv4` is syntactically a version-4 UUID. -/
theorem uuidv4_syntax (rnd : Fin 16 → Nat) : isUuidV4Syntax (uuidv4 rnd) = true := by
  simp only [uuidv4, byteToHex, isUuidV4Syntax, List.cons_append, List.nil_append,
    List.all_cons, List.all_nil, version_hexDigit, variant_hexDigit,
    isHexLower_hexDigit_mod16, isHexLower_hexDigit_div]
  simp

theorem lookup_map_replace (k v : String) :
    ∀ t : JsonObj, t.any (fun p => p.1 == k) = true →
      lookup (t.map (fun p => if p.1 == k then (k, v) else p)) k = some v := by
  intro t
  induction t with
  | nil => intro h; simp at h
  | cons hd tl ih =>
    obtain ⟨a, b⟩ := hd
    intro h
    by_cases hk : a = k
    · subst hk
      simp only [List.map_cons]
      rw [if_pos (show ((a, b).1 == a) = true by simp)]
      simp [lookup]
    · simp only [List.any_cons, Bool.or_eq_true, beq_iff_eq, hk, false_or] at h
      simp only [List.map_cons]
      rw [if_neg (show ¬ ((a, b).1 == k) = true by simp [hk])]
      simp only [lookup, hk, if_false]
      exact ih h

theorem lookup_append_new (k v : String) :
    ∀ t : JsonObj, t.any (fun p => p.1 == k) = false →
      lookup (t ++ [(k, v)]) k = some v := by
  intro t
  induction t with
  | nil => intro _; simp [lookup]
  | cons hd tl ih =>
    obtain ⟨a, b⟩ := hd
    intro h
    simp only [List.any_cons, Bool.or_eq_false_iff, beq_eq_false_iff_ne] at h
    simp only [List.cons_append, lookup, h.1, if_false]
    exact ih h.2

/-- After a JS property assignment the object maps the key to the value. -/
theorem lookup_setKey (o : JsonObj) (k v : String) :
    lookup (setKey o k v) k = some v := by
  unfold setKey
  cases h : o.any (fun p => p.1 == k) with
  | true =>
    simp only [if_true]
    exact lookup_map_replace k v o h
  | false =>
    simp only [Bool.false_eq_true, if_false]
    exact lookup_append_new k v o h

theorem uuidv4_data_length (rnd : Fin 16 → Nat) : (uuidv4 rnd).data.length = 36 := by
  simp [uuidv4, byteToHex]

theorem uuidv4_ne_empty (rnd : Fin 16 → Nat) : uuidv4 rnd ≠ "" := by
  intro h
  have h2 := uuidv4_data_length rnd
  rw [h] at h2
  exact absurd h2 (by decide)

theorem truthy_some (s : String) (h : s ≠ "") : truthy (some s) = true := by
  simp [truthy, h]

end Checkpoint

namespace Checkpoint

/-- Claim C6 (amended): for a file that exists, parses, and already holds a
truthy (non-empty) value at the target key, `getId` returns that value and
performs no write: the file system is unchanged (all other fields kept, no
comment added) and the only event is the read. -/
theorem getId_existing_truthy_no_write (w : World) (rnd : Fin 16 → Nat)
    (filePath key : String) (c : Option String) (o : JsonObj) (v : String)
    (hf : w.files filePath = FileContent.obj o)
    (hl : lookup o key = some v) (hv : v ≠ "") :
    getId w rnd filePath key c = (Except.ok v, w, [Event.fileRead filePath]) := by
  simp [getId, hf, hl, truthy_some v hv]

/-- Claim C6 witness: a file with an unrelated field `app` and a non-empty
value at the target key `app` is read and returned unchanged. -/
theorem getId_existing_truthy_no_write_witness :
    staleWorld.files "/project/cdktf.json" =
      FileContent.obj [("app", "x"), ("projectId", "")] ∧
    lookup [("app", "x"), ("projectId", "")] "app" = some "x" ∧
    "x" ≠ "" ∧
    getId staleWorld zeroBytes "/project/cdktf.json" "app" none =
      (Except.ok "x", staleWorld, [Event.fileRead "/project/cdktf.json"]) :=
  ⟨rfl, rfl, by decide,
   getId_existing_truthy_no_write staleWorld zeroBytes "/project/cdktf.json"
     "app" none [("app", "x"), ("projectId", "")] "x" rfl rfl (by decide)⟩

/-- Claim C6 counterexample: the file contains the target key (with the
empty string as value, which is falsy), yet `getId` does not return the
existing value — it rewrites the file and returns a fresh UUID. -/
theorem getId_falsy_value_rewrites :
    lookup [("app", "x"), ("projectId", "")] "projectId" = some "" ∧
    (getId staleWorld zeroBytes "/project/cdktf.json" "projectId" none).1 =
      Except.ok "00000000-0000-4000-8000-000000000000" ∧
    Event.fileWrite "/project/cdktf.json" ∈
      (getId staleWorld zeroBytes "/project/cdktf.json" "projectId" none).2.2 ∧
    (getId staleWorld zeroBytes "/project/cdktf.json" "projectId" none).2.1.files
        "/project/cdktf.json" =
      FileContent.obj
        [("app", "x"), ("projectId", "00000000-0000-4000-8000-000000000000")] :=
  ⟨rfl, rfl, by decide, rfl⟩

/-- Claim C5: on a missing (or unparseable) identity file, `getId` returns a
fresh version-4 UUID, creates the file containing the key mapped to that UUID
(plus the `//` comment field, newlines replaced by spaces, when a comment is
supplied), and a second call with the same path and key returns the identical
value without writing. -/
theorem getId_fresh_file (w : World) (rnd : Fin 16 → Nat) (filePath key : String)
    (c : Option String)
    (hm : w.files filePath = FileContent.missing ∨
          w.files filePath = FileContent.unparseable)
    (hw : w.writeError filePath = none) :
    (getId w rnd filePath key c).1 = Except.ok (uuidv4 rnd) ∧
    isUuidV4Syntax (uuidv4 rnd) = true ∧
    (getId w rnd filePath key c).2.1.files filePath =
      FileContent.obj
        (setKey (if truthy c then [("//", replaceNewlines (c.getD ""))] else [])
          key (uuidv4 rnd)) ∧
    (∀ s, c = some s → s ≠ "" → key ≠ "//" →
      lookup
        (setKey (if truthy c then [("//", replaceNewlines (c.getD ""))] else [])
          key (uuidv4 rnd)) "//" = some (replaceNewlines s)) ∧
    (∀ rnd2 c2, getId (getId w rnd filePath key c).2.1 rnd2 filePath key c2 =
      (Except.ok (uuidv4 rnd), (getId w rnd filePath key c).2.1,
       [Event.fileRead filePath])) := by
  have hkey := lookup_setKey
    (if truthy c then [("//", replaceNewlines (c.getD ""))] else []) key (uuidv4 rnd)
  have hne := uuidv4_ne_empty rnd
  refine ⟨?_, uuidv4_syntax rnd, ?_, ?_, ?_⟩
  · rcases hm with hm | hm <;> simp [getId, hm, hw]
  · rcases hm with hm | hm <;> simp [getId, hm, hw, World.setFile]
  · intro s hs hsne hk
    subst hs
    rw [if_pos (truthy_some s hsne)]
    unfold setKey
    rw [if_neg (by simp [Ne.symm hk])]
    simp [lookup, Ne.symm hk, Option.getD_some]
  · intro rnd2 c2
    rcases hm with hm | hm <;>
      simp [getId, hm, hw, World.setFile, hkey, truthy_some _ hne,
        Option.getD_some]

/-- Claim C5 witness: instantiated at the user identity file of `emptyWorld`. -/
theorem getId_fresh_file_witness :
    (emptyWorld.files "/home/user/.cdktf/config.json" = FileContent.missing ∨
     emptyWorld.files "/home/user/.cdktf/config.json" = FileContent.unparseable) ∧
    emptyWorld.writeError "/home/user/.cdktf/config.json" = none ∧
    ((getId emptyWorld zeroBytes "/home/user/.cdktf/config.json" "userId"
        (some userIdComment)).1 = Except.ok (uuidv4 zeroBytes) ∧
     isUuidV4Syntax (uuidv4 zeroBytes) = true ∧
     (getId emptyWorld zeroBytes "/home/user/.cdktf/config.json" "userId"
        (some userIdComment)).2.1.files "/home/user/.cdktf/config.json" =
       FileContent.obj
         (setKey
           (if truthy (some userIdComment) then
             [("//", replaceNewlines ((some userIdComment).getD ""))]
            else []) "userId" (uuidv4 zeroBytes)) ∧
     (∀ s, some userIdComment = some s → s ≠ "" → "userId" ≠ "//" →
       lookup
         (setKey
           (if truthy (some userIdComment) then
             [("//", replaceNewlines ((some userIdComment).getD ""))]
            else []) "userId" (uuidv4 zeroBytes)) "//" =
         some (replaceNewlines s)) ∧
     (∀ rnd2 c2,
       getId (getId emptyWorld zeroBytes "/home/user/.cdktf/config.json"
         "userId" (some userIdComment)).2.1 rnd2
         "/home/user/.cdktf/config.json" "userId" c2 =
       (Except.ok (uuidv4 zeroBytes),
        (getId emptyWorld zeroBytes "/home/user/.cdktf/config.json" "userId"
          (some userIdComment)).2.1,
        [Event.fileRead "/home/user/.cdktf/config.json"]))) :=
  ⟨Or.inl rfl, rfl,
   getId_fresh_file emptyWorld zeroBytes "/home/user/.cdktf/config.json"
     "userId" (some userIdComment) (Or.inl rfl) rfl⟩

/-- Claim C10: when `res.statusCode` is missing or `0` (falsy), the validity
check is skipped entirely and the outcome is decided by the body alone — in
particular a body that ends resolves as success although the code is not in
the accepted set; rejection with `res.statusMessage` happens exactly when a
truthy status code outside `VALID_STATUS_CODES` is present. -/
theorem post_falsy_status_skips_check (r : HttpResponse) :
    ((r.statusCode = none ∨ r.statusCode = some 0) →
      postSettle (TransportOutcome.response r) = bodyResult r.body ∧
      (r.body = BodyOutcome.ended →
        postSettle (TransportOutcome.response r) = Except.ok () ∧
        r.statusCode ≠ some 200 ∧ r.statusCode ≠ some 201)) ∧
    (∀ sc, r.statusCode = some sc → sc ≠ 0 → sc ∉ VALID_STATUS_CODES →
      postSettle (TransportOutcome.response r) = Except.error r.statusMessage) := by
  constructor
  · rintro (h | h) <;>
      exact ⟨by simp [postSettle, h],
        fun hb => ⟨by simp [postSettle, h, hb, bodyResult], by simp [h], by simp [h]⟩⟩
  · intro sc hsc h0 hmem
    simp [postSettle, hsc, h0, hmem]

/-- Claim C10 witness: a response with status code 0 and an ended body
resolves successfully. -/
theorem post_falsy_status_skips_check_witness :
    postSettle (TransportOutcome.response
      { statusCode := some 0, statusMessage := "Internal Server Error",
        body := BodyOutcome.ended }) = Except.ok () :=
  (((post_falsy_status_skips_check
    { statusCode := some 0, statusMessage := "Internal Server Error",
      body := BodyOutcome.ended }).1 (Or.inr rfl)).2 rfl).1

/-- Claim C8: on timeout `post` rejects with the `request timeout` error
after 1000 ms, but the timeout callback performs no abort: it only rejects,
and contains no `req.destroy()`/`req.abort()` call, so the in-flight request
is not cancelled. -/
theorem post_timeout_rejects_without_abort :
    postSettle TransportOutcome.timeout = Except.error "request timeout" ∧
    postTimeoutCallback.rejectsWithTimeoutError = true ∧
    postTimeoutCallback.destroysRequest = false ∧
    POST_TIMEOUT_MS = 1000 :=
  ⟨rfl, rfl, rfl, rfl⟩

/-- Claim C9: for the one-character body `"é"` (code point 233) the
`Content-Length` header is `data.length = 1` (UTF-16 code units) while the
UTF-8 body sent on the wire is 2 bytes long, so the header is not the byte
length of the body. -/
theorem post_contentLength_not_byte_length :
    (postHeaders [233]).contentLength = 1 ∧
    utf8ByteLength [233] = 2 ∧
    (postHeaders [233]).contentLength ≠ utf8ByteLength [233] ∧
    (postHeaders [233]).accept = "application/json" ∧
    (postHeaders [233]).userAgent = "HashiCorp/cdktf-cli" :=
  ⟨rfl, rfl, by decide, rfl, rfl⟩

/-- For ASCII-only bodies the two length notions agree (why the slip is
usually invisible). -/
theorem utf16_eq_utf8_on_ascii (s : JSString) (h : ∀ cp ∈ s, cp < 128) :
    utf16Length s = utf8ByteLength s := by
  unfold utf16Length utf8ByteLength
  induction s with
  | nil => rfl
  | cons hd tl ih =>
    have hh := h hd (List.mem_cons_self hd tl)
    simp only [List.map_cons, List.sum_cons]
    rw [ih (fun cp hcp => h cp (List.mem_cons_of_mem hd hcp))]
    have h1 : hd < 65536 := by omega
    simp [hh, h1]

/-- Claim C2: with `CHECKPOINT_DISABLE` set to any truthy value,
`ReportRequest` returns immediately and successfully: no events at all (no
network call, no identity-file read or write, no logging) and the record and
file system are returned unchanged. -/
theorem reportRequest_disabled_noop (ctx : RRContext) (w : World)
    (p : ReportParams) (h : truthy ctx.checkpointDisable = true) :
    ReportRequest ctx w p = (Except.ok (), p, w, []) := by
  simp [ReportRequest, h]

/-- Claim C2 witness: `CHECKPOINT_DISABLE=1`. -/
theorem reportRequest_disabled_noop_witness :
    truthy disabledCtx.checkpointDisable = true ∧
    ReportRequest disabledCtx emptyWorld sampleParams =
      (Except.ok (), sampleParams, emptyWorld, []) :=
  ⟨rfl, reportRequest_disabled_noop disabledCtx emptyWorld sampleParams rfl⟩

/-- Claim C1 counterexample: a record whose caller already supplied a
`userId`, processed to completion under a detected CI system, ends with both
`userId` and `ci` set, and both keys present in the serialized payload. -/
theorem reportRequest_ci_and_userId_both_set :
    (ReportRequest ciCtx emptyWorld
      { sampleParams with userId := some "alice-id" }).1 = Except.ok () ∧
    (ReportRequest ciCtx emptyWorld
      { sampleParams with userId := some "alice-id" }).2.1.userId =
      some "alice-id" ∧
    (ReportRequest ciCtx emptyWorld
      { sampleParams with userId := some "alice-id" }).2.1.ci =
      some "github-actions" ∧
    "userId" ∈ presentKeys (ReportRequest ciCtx emptyWorld
      { sampleParams with userId := some "alice-id" }).2.1 ∧
    "ci" ∈ presentKeys (ReportRequest ciCtx emptyWorld
      { sampleParams with userId := some "alice-id" }).2.1 :=
  ⟨rfl, rfl, rfl, by decide, by decide⟩

end Checkpoint

namespace Checkpoint

theorem rrDefaultRunID_eq (ctx : RRContext) (p : ReportParams) :
    rrDefaultRunID ctx p =
      ({ p with runID := if truthy p.runID then p.runID
                         else some (uuidv4 (ctx.rnd 0)) },
       if truthy p.runID then 0 else 1) := by
  unfold rrDefaultRunID; split <;> simp_all

theorem rrDefaultDateTime_eq (ctx : RRContext) (p : ReportParams) :
    rrDefaultDateTime ctx p =
      { p with dateTime := if p.dateTime.isSome then p.dateTime
                           else some ctx.now } := by
  unfold rrDefaultDateTime; split <;> simp_all

theorem rrDefaultArch_eq (ctx : RRContext) (p : ReportParams) :
    rrDefaultArch ctx p =
      { p with arch := if truthy p.arch then p.arch else some ctx.hostArch } := by
  unfold rrDefaultArch; split <;> simp_all

theorem rrDefaultOs_eq (ctx : RRContext) (p : ReportParams) :
    rrDefaultOs ctx p =
      { p with os := if truthy p.os then p.os else some ctx.hostPlatform } := by
  unfold rrDefaultOs; split <;> simp_all

theorem rrSetCi_eq (ctx : RRContext) (p : ReportParams) :
    rrSetCi ctx p =
      { p with ci := if truthy ctx.ciDetect then ctx.ciDetect else p.ci } := by
  unfold rrSetCi; split <;> simp_all

theorem rrPost_eq (ctx : RRContext) (w : World) (p : ReportParams)
    (evs : List Event) :
    rrPost ctx w p evs =
      (Except.ok (), p, w,
       evs ++ [Event.netPost (BASE_URL ++ "telemetry/" ++ p.product) p] ++
       (match ctx.transport with
        | Except.ok _ => []
        | Except.error e => [Event.procError e])) := by
  unfold rrPost
  rcases htr : ctx.transport with _ | e <;> simp

theorem rrFillUserId_ok_fields (ctx : RRContext) (w : World) (p : ReportParams)
    (n : Nat) (p5 : ReportParams) (w5 : World) (evs5 : List Event) (n5 : Nat)
    (h : rrFillUserId ctx w p n = (Except.ok p5, w5, evs5, n5)) :
    p5.ci = p.ci ∧ p5.projectId = p.projectId ∧ p5.runID = p.runID ∧
    p5.dateTime = p.dateTime ∧ p5.arch = p.arch ∧ p5.os = p.os ∧
    p5.payload = p.payload ∧ p5.product = p.product ∧
    p5.version = p.version ∧ p5.command = p.command ∧
    p5.language = p.language ∧
    (truthy ctx.ciDetect = true → p5.userId = p.userId) ∧
    (truthy p.userId = true → p5 = p ∧ w5 = w ∧ evs5 = []) := by
  unfold rrFillUserId at h
  by_cases hc : (!truthy p.userId && !truthy ctx.ciDetect) = true
  · rw [if_pos hc] at h
    rcases hg : getUserId w (ctx.rnd n) ctx.homedir with ⟨r, w2, evs⟩
    rw [hg] at h
    cases r with
    | ok v =>
      simp only [Prod.mk.injEq] at h
      obtain ⟨h1, h2, h3, h4⟩ := h
      injection h1 with h1
      subst h1 h2 h3
      simp only [Bool.and_eq_true, Bool.not_eq_true'] at hc
      refine ⟨rfl, rfl, rfl, rfl, rfl, rfl, rfl, rfl, rfl, rfl, rfl, ?_, ?_⟩
      · intro hci; rw [hci] at hc; exact absurd hc.2 (by simp)
      · intro hu; rw [hu] at hc; exact absurd hc.1 (by simp)
    | error e => simp at h
  · rw [if_neg hc] at h
    simp only [Prod.mk.injEq] at h
    obtain ⟨h1, h2, h3, h4⟩ := h
    injection h1 with h1
    subst h1 h2 h3
    exact ⟨rfl, rfl, rfl, rfl, rfl, rfl, rfl, rfl, rfl, rfl, rfl,
      fun _ => rfl, fun _ => ⟨rfl, rfl, rfl⟩⟩

theorem rrFillProjectId_ok_fields (ctx : RRContext) (w : World)
    (p : ReportParams) (n : Nat) (p7 : ReportParams) (w7 : World)
    (evs7 : List Event)
    (h : rrFillProjectId ctx w p n = (Except.ok p7, w7, evs7)) :
    p7.ci = p.ci ∧ p7.userId = p.userId ∧ p7.runID = p.runID ∧
    p7.dateTime = p.dateTime ∧ p7.arch = p.arch ∧ p7.os = p.os ∧
    p7.payload = p.payload ∧ p7.product = p.product ∧
    p7.version = p.version ∧ p7.command = p.command ∧
    p7.language = p.language ∧
    (truthy p.projectId = true → p7 = p ∧ w7 = w ∧ evs7 = []) := by
  unfold rrFillProjectId at h
  by_cases hc : truthy p.projectId = true
  · rw [if_pos hc] at h
    simp only [Prod.mk.injEq] at h
    obtain ⟨h1, h2, h3⟩ := h
    injection h1 with h1
    subst h1 h2 h3
    exact ⟨rfl, rfl, rfl, rfl, rfl, rfl, rfl, rfl, rfl, rfl, rfl,
      fun _ => ⟨rfl, rfl, rfl⟩⟩
  · rw [if_neg hc] at h
    rcases hg : getProjectId w (ctx.rnd n) ctx.cwd with ⟨r, w2, evs⟩
    rw [hg] at h
    cases r with
    | ok v =>
      simp only [Prod.mk.injEq] at h
      obtain ⟨h1, h2, h3⟩ := h
      injection h1 with h1
      subst h1 h2 h3
      exact ⟨rfl, rfl, rfl, rfl, rfl, rfl, rfl, rfl, rfl, rfl, rfl,
        fun hp => absurd hp hc⟩
    | error e => simp at h

end Checkpoint

namespace Checkpoint

theorem rrSetCi_userId (ctx : RRContext) (p : ReportParams) :
    (rrSetCi ctx p).userId = p.userId := by
  unfold rrSetCi; split <;> rfl

theorem rrSetCi_ci (ctx : RRContext) (p : ReportParams) :
    (rrSetCi ctx p).ci =
      if truthy ctx.ciDetect then ctx.ciDetect else p.ci := by
  unfold rrSetCi; split <;> simp_all

theorem rrSetCi_skip (ctx : RRContext) (p : ReportParams)
    (h : truthy ctx.ciDetect = false) : rrSetCi ctx p = p := by
  unfold rrSetCi; simp [h]

/-- Claim C1 (amended): records entering with neither userId nor ci set. -/
theorem reportRequest_fresh_userId_ci_exclusive (ctx : RRContext) (w : World)
    (p : ReportParams) (hu : p.userId = none) (hc : p.ci = none) :
    ¬((ReportRequest ctx w p).2.1.userId.isSome = true ∧
      (ReportRequest ctx w p).2.1.ci.isSome = true) := by
  unfold ReportRequest
  cases hd : truthy ctx.checkpointDisable with
  | true => simp [hu, hc]
  | false =>
    simp only [Bool.false_eq_true, if_false]
    generalize hp4 : rrDefaultOs ctx (rrDefaultArch ctx (rrDefaultDateTime ctx
      (rrDefaultRunID ctx p).1)) = p4
    have hu4 : p4.userId = none := by
      rw [← hp4]
      simp [rrDefaultOs_eq, rrDefaultArch_eq, rrDefaultDateTime_eq,
        rrDefaultRunID_eq, hu]
    have hc4 : p4.ci = none := by
      rw [← hp4]
      simp [rrDefaultOs_eq, rrDefaultArch_eq, rrDefaultDateTime_eq,
        rrDefaultRunID_eq, hc]
    split
    · simp [hu4]
    · rename_i p5 w5 evs5 n5 heq
      obtain ⟨h5ci, -, -, -, -, -, -, -, -, -, -, h5uci, -⟩ :=
        rrFillUserId_ok_fields ctx w p4 (rrDefaultRunID ctx p).2
          p5 w5 evs5 n5 heq
      have key : ¬((rrSetCi ctx p5).userId.isSome = true ∧
                   (rrSetCi ctx p5).ci.isSome = true) := by
        rintro ⟨hku, hkc⟩
        cases hci : truthy ctx.ciDetect with
        | true =>
          rw [rrSetCi_userId, h5uci hci, hu4] at hku
          simp at hku
        | false =>
          rw [rrSetCi_ci, hci] at hkc
          simp only [Bool.false_eq_true, if_false] at hkc
          rw [h5ci, hc4] at hkc
          simp at hkc
      split
      · exact key
      · rename_i p7 w7 evs7 heq2
        obtain ⟨h7ci, h7u, -, -, -, -, -, -, -, -, -, -⟩ :=
          rrFillProjectId_ok_fields ctx w5 (rrSetCi ctx p5) n5 p7 w7 evs7 heq2
        simp only [rrPost_eq]
        rintro ⟨hku, hkc⟩
        rw [h7u] at hku
        rw [h7ci] at hkc
        exact key ⟨hku, hkc⟩

end Checkpoint

namespace Checkpoint

theorem getId_ok_and_writeError (w : World) (rnd : Fin 16 → Nat)
    (filePath key : String) (c : Option String)
    (hw : w.writeError filePath = none) :
    (∃ v, (getId w rnd filePath key c).1 = Except.ok v) ∧
    (getId w rnd filePath key c).2.1.writeError = w.writeError := by
  unfold getId
  cases hf : w.files filePath with
  | missing => simp [hw, World.setFile]
  | unparseable => simp [hw, World.setFile]
  | obj o =>
    cases ht : truthy (lookup o key) with
    | true => simp [ht]
    | false => simp [ht, hw, World.setFile]

theorem rrFillUserId_ok_of_writeError_none (ctx : RRContext) (w : World)
    (p : ReportParams) (n : Nat) (hw : ∀ q, w.writeError q = none) :
    ∃ p5 w5 evs5 n5, rrFillUserId ctx w p n = (Except.ok p5, w5, evs5, n5) ∧
      ∀ q, w5.writeError q = none := by
  unfold rrFillUserId
  by_cases hcnd : (!truthy p.userId && !truthy ctx.ciDetect) = true
  · rw [if_pos hcnd]
    unfold getUserId
    rcases hg : getId w (ctx.rnd n) (ctx.homedir ++ "/.cdktf/config.json")
      "userId" (some userIdComment) with ⟨r, w2, evs⟩
    have hok := getId_ok_and_writeError w (ctx.rnd n)
      (ctx.homedir ++ "/.cdktf/config.json") "userId" (some userIdComment)
      (hw _)
    rw [hg] at hok
    obtain ⟨⟨v, hv⟩, hwe⟩ := hok
    simp only at hv hwe
    subst hv
    exact ⟨_, _, _, _, rfl, fun q => by rw [hwe]; exact hw q⟩
  · rw [if_neg hcnd]
    exact ⟨p, w, [], n, rfl, hw⟩

theorem rrFillProjectId_ok_of_writeError_none (ctx : RRContext) (w : World)
    (p : ReportParams) (n : Nat) (hw : ∀ q, w.writeError q = none) :
    ∃ p7 w7 evs7, rrFillProjectId ctx w p n = (Except.ok p7, w7, evs7) ∧
      ∀ q, w7.writeError q = none := by
  unfold rrFillProjectId
  by_cases hcnd : truthy p.projectId = true
  · rw [if_pos hcnd]
    exact ⟨p, w, [], rfl, hw⟩
  · rw [if_neg hcnd]
    unfold getProjectId
    rcases hg : getId w (ctx.rnd n) (ctx.cwd ++ "/cdktf.json")
      "projectId" none with ⟨r, w2, evs⟩
    have hok := getId_ok_and_writeError w (ctx.rnd n)
      (ctx.cwd ++ "/cdktf.json") "projectId" none (hw _)
    rw [hg] at hok
    obtain ⟨⟨v, hv⟩, hwe⟩ := hok
    simp only at hv hwe
    subst hv
    exact ⟨_, _, _, rfl, fun q => by rw [hwe]; exact hw q⟩

/-- Claim C4 (amended): when the identity-store writes succeed, ReportRequest
always resolves successfully, and every transport failure is routed to the
processLoggerError sink (a procError event) instead of being raised. -/
theorem reportRequest_catches_transport_failures (ctx : RRContext) (w : World)
    (p : ReportParams) (hw : ∀ q, w.writeError q = none) :
    (ReportRequest ctx w p).1 = Except.ok () ∧
    (∀ e, ctx.transport = Except.error e →
      truthy ctx.checkpointDisable = false →
      Event.procError e ∈ (ReportRequest ctx w p).2.2.2) := by
  unfold ReportRequest
  cases hd : truthy ctx.checkpointDisable with
  | true => simp [hd]
  | false =>
    simp only [Bool.false_eq_true, if_false]
    obtain ⟨p5, w5, evs5, n5, hfu, hw5⟩ := rrFillUserId_ok_of_writeError_none
      ctx w (rrDefaultOs ctx (rrDefaultArch ctx (rrDefaultDateTime ctx
        (rrDefaultRunID ctx p).1))) (rrDefaultRunID ctx p).2 hw
    split
    · rename_i e w5x evs5x n5x heq
      rw [hfu] at heq
      exact absurd heq (by simp)
    · rename_i p5x w5x evs5x n5x heq
      rw [hfu] at heq
      simp only [Prod.mk.injEq] at heq
      obtain ⟨h1, h2, h3, h4⟩ := heq
      injection h1 with h1
      subst h1 h2 h3 h4
      obtain ⟨p7, w7, evs7, hfp, hw7⟩ := rrFillProjectId_ok_of_writeError_none
        ctx w5 (rrSetCi ctx p5) n5 hw5
      split
      · rename_i e w7x evs7x heq2
        rw [hfp] at heq2
        exact absurd heq2 (by simp)
      · rename_i p7x w7x evs7x heq2
        rw [hfp] at heq2
        simp only [Prod.mk.injEq] at heq2
        obtain ⟨g1, g2, g3⟩ := heq2
        injection g1 with g1
        subst g1 g2 g3
        rw [rrPost_eq]
        refine ⟨rfl, ?_⟩
        intro e htr _
        rw [htr]
        simp

/-- Claim C4 witness: a failing transport with a clean file system. -/
theorem reportRequest_catches_transport_failures_witness :
    (∀ q, emptyWorld.writeError q = none) ∧
    (ReportRequest errCtx emptyWorld sampleParams).1 = Except.ok () ∧
    errCtx.transport = Except.error "Internal Server Error" ∧
    truthy errCtx.checkpointDisable = false ∧
    Event.procError "Internal Server Error" ∈
      (ReportRequest errCtx emptyWorld sampleParams).2.2.2 :=
  ⟨fun _ => rfl,
   (reportRequest_catches_transport_failures errCtx emptyWorld sampleParams
     (fun _ => rfl)).1,
   rfl, rfl,
   (reportRequest_catches_transport_failures errCtx emptyWorld sampleParams
     (fun _ => rfl)).2 "Internal Server Error" rfl rfl⟩

/-- Claim C4 counterexample: a throwing identity-store write is not caught —
ReportRequest rejects, and no transport attempt or procError logging happens
(the only event is the attempted identity-file read). -/
theorem reportRequest_identity_error_propagates :
    (ReportRequest sampleCtx failWorld sampleParams).1 =
      Except.error "EACCES: permission denied" ∧
    (ReportRequest sampleCtx failWorld sampleParams).1 ≠ Except.ok () ∧
    (ReportRequest sampleCtx failWorld sampleParams).2.2.2 =
      [Event.fileRead "/home/user/.cdktf/config.json"] := by
  refine ⟨rfl, ?_, rfl⟩
  intro h
  have h2 : (Except.error "EACCES: permission denied" : Except String Unit) =
      Except.ok () := by
    rw [← h]; rfl
  exact Except.noConfusion h2

/-- Claim C3: sendTelemetry always resolves successfully, and when the inner
ReportRequest rejects (for any reason, identity-store errors included) the
error is routed to logger.error with the "Could not send telemetry data"
message. -/
theorem sendTelemetry_always_resolves (ctx : RRContext) (w : World)
    (command : String) (payload : List (String × String)) :
    (sendTelemetry ctx w command payload).1 = Except.ok () ∧
    (∀ e, (ReportRequest ctx w (initialReportParams ctx command payload)).1 =
        Except.error e →
      Event.logError ("Could not send telemetry data: " ++ e) ∈
        (sendTelemetry ctx w command payload).2.2.2) := by
  unfold sendTelemetry
  rcases hr : ReportRequest ctx w (initialReportParams ctx command payload)
    with ⟨r, p2, w2, evs⟩
  cases r with
  | ok u => exact ⟨rfl, by simp⟩
  | error e =>
    refine ⟨rfl, ?_⟩
    intro e2 he2
    simp only at he2
    injection he2 with he2
    subst he2
    simp

/-- Claim C3 witness: even with a file system whose identity write throws,
sendTelemetry resolves and logs the error. -/
theorem sendTelemetry_always_resolves_witness :
    (sendTelemetry sampleCtx failWorld "diff" [("language", "typescript")]).1 =
      Except.ok () ∧
    Event.logError "Could not send telemetry data: EACCES: permission denied" ∈
      (sendTelemetry sampleCtx failWorld "diff"
        [("language", "typescript")]).2.2.2 :=
  ⟨(sendTelemetry_always_resolves sampleCtx failWorld "diff"
      [("language", "typescript")]).1,
   (sendTelemetry_always_resolves sampleCtx failWorld "diff"
      [("language", "typescript")]).2 "EACCES: permission denied" rfl⟩

end Checkpoint

namespace Checkpoint

theorem rrSetCi_runID (ctx : RRContext) (p : ReportParams) :
    (rrSetCi ctx p).runID = p.runID := by
  unfold rrSetCi; split <;> rfl

theorem rrSetCi_dateTime (ctx : RRContext) (p : ReportParams) :
    (rrSetCi ctx p).dateTime = p.dateTime := by
  unfold rrSetCi; split <;> rfl

theorem rrSetCi_arch (ctx : RRContext) (p : ReportParams) :
    (rrSetCi ctx p).arch = p.arch := by
  unfold rrSetCi; split <;> rfl

theorem rrSetCi_os (ctx : RRContext) (p : ReportParams) :
    (rrSetCi ctx p).os = p.os := by
  unfold rrSetCi; split <;> rfl

theorem rrSetCi_projectId (ctx : RRContext) (p : ReportParams) :
    (rrSetCi ctx p).projectId = p.projectId := by
  unfold rrSetCi; split <;> rfl

/-- Claim C7 counterexample: a caller-supplied (present) empty-string runID
is overwritten by the defaulting step with a fresh UUID. -/
theorem reportRequest_overwrites_empty_runID :
    ({ sampleParams with runID := some "" } : ReportParams).runID = some "" ∧
    (ReportRequest sampleCtx emptyWorld
      { sampleParams with runID := some "" }).2.1.runID =
      some "00000000-0000-4000-8000-000000000000" ∧
    some "00000000-0000-4000-8000-000000000000" ≠ (some "" : Option String) :=
  ⟨rfl, rfl, by decide⟩

/-- Claim C7 (amended): the defaulting step fills runID, dateTime, arch and
os exactly once and only when falsy (absent or empty; dateTime only when
absent), never overwrites a truthy caller value of userId or projectId, and
is idempotent: on a record fully populated with truthy values whose ci agrees
with the detected CI, the record is returned unchanged. -/
theorem reportRequest_defaulting_fill_rules (ctx : RRContext) (w : World)
    (p : ReportParams) (hdis : truthy ctx.checkpointDisable = false) :
    (ReportRequest ctx w p).2.1.runID =
      (if truthy p.runID then p.runID else some (uuidv4 (ctx.rnd 0))) ∧
    (ReportRequest ctx w p).2.1.dateTime =
      (if p.dateTime.isSome then p.dateTime else some ctx.now) ∧
    (ReportRequest ctx w p).2.1.arch =
      (if truthy p.arch then p.arch else some ctx.hostArch) ∧
    (ReportRequest ctx w p).2.1.os =
      (if truthy p.os then p.os else some ctx.hostPlatform) ∧
    (truthy p.userId = true → (ReportRequest ctx w p).2.1.userId = p.userId) ∧
    (truthy p.projectId = true →
      (ReportRequest ctx w p).2.1.projectId = p.projectId) ∧
    (truthy p.runID = true → p.dateTime.isSome = true → truthy p.arch = true →
     truthy p.os = true → truthy p.userId = true → truthy p.projectId = true →
     (truthy ctx.ciDetect = true → p.ci = ctx.ciDetect) →
     (ReportRequest ctx w p).2.1 = p) := by
  unfold ReportRequest
  simp only [hdis, Bool.false_eq_true, if_false]
  generalize hp4 : rrDefaultOs ctx (rrDefaultArch ctx (rrDefaultDateTime ctx
    (rrDefaultRunID ctx p).1)) = p4
  have hp4run : p4.runID =
      (if truthy p.runID then p.runID else some (uuidv4 (ctx.rnd 0))) := by
    rw [← hp4]
    simp [rrDefaultOs_eq, rrDefaultArch_eq, rrDefaultDateTime_eq,
      rrDefaultRunID_eq]
  have hp4dt : p4.dateTime =
      (if p.dateTime.isSome then p.dateTime else some ctx.now) := by
    rw [← hp4]
    simp [rrDefaultOs_eq, rrDefaultArch_eq, rrDefaultDateTime_eq,
      rrDefaultRunID_eq]
  have hp4arch : p4.arch =
      (if truthy p.arch then p.arch else some ctx.hostArch) := by
    rw [← hp4]
    simp [rrDefaultOs_eq, rrDefaultArch_eq, rrDefaultDateTime_eq,
      rrDefaultRunID_eq]
  have hp4os : p4.os =
      (if truthy p.os then p.os else some ctx.hostPlatform) := by
    rw [← hp4]
    simp [rrDefaultOs_eq, rrDefaultArch_eq, rrDefaultDateTime_eq,
      rrDefaultRunID_eq]
  have hp4u : p4.userId = p.userId := by
    rw [← hp4]
    simp [rrDefaultOs_eq, rrDefaultArch_eq, rrDefaultDateTime_eq,
      rrDefaultRunID_eq]
  have hp4pid : p4.projectId = p.projectId := by
    rw [← hp4]
    simp [rrDefaultOs_eq, rrDefaultArch_eq, rrDefaultDateTime_eq,
      rrDefaultRunID_eq]
  split
  · rename_i e w5x evs5x n5x heq
    refine ⟨hp4run, hp4dt, hp4arch, hp4os, fun _ => hp4u, fun _ => hp4pid, ?_⟩
    intro hrun hdt harch hos huid hpid hcip
    exfalso
    unfold rrFillUserId at heq
    rw [if_neg (by simp [hp4u, huid])] at heq
    exact absurd heq (by simp)
  · rename_i p5 w5 evs5 n5 heq
    obtain ⟨h5ci, h5pid, h5run, h5dt, h5arch, h5os, h5pay, h5prod, h5ver,
      h5cmd, h5lang, h5uci, h5skip⟩ :=
      rrFillUserId_ok_fields ctx w p4 (rrDefaultRunID ctx p).2
        p5 w5 evs5 n5 heq
    split
    · rename_i e w7x evs7x heq2
      refine ⟨?_, ?_, ?_, ?_, ?_, ?_, ?_⟩
      · rw [rrSetCi_runID, h5run, hp4run]
      · rw [rrSetCi_dateTime, h5dt, hp4dt]
      · rw [rrSetCi_arch, h5arch, hp4arch]
      · rw [rrSetCi_os, h5os, hp4os]
      · intro huid
        rw [rrSetCi_userId, (h5skip (by rw [hp4u]; exact huid)).1, hp4u]
      · intro hpid
        exfalso
        unfold rrFillProjectId at heq2
        rw [if_pos (show truthy (rrSetCi ctx p5).projectId = true by
          rw [rrSetCi_projectId, h5pid, hp4pid]; exact hpid)] at heq2
        exact absurd heq2 (by simp)
      · intro hrun hdt harch hos huid hpid hcip
        exfalso
        unfold rrFillProjectId at heq2
        rw [if_pos (show truthy (rrSetCi ctx p5).projectId = true by
          rw [rrSetCi_projectId, h5pid, hp4pid]; exact hpid)] at heq2
        exact absurd heq2 (by simp)
    · rename_i p7 w7 evs7 heq2
      obtain ⟨h7ci, h7u, h7run, h7dt, h7arch, h7os, h7pay, h7prod, h7ver,
        h7cmd, h7lang, h7skip⟩ :=
        rrFillProjectId_ok_fields ctx w5 (rrSetCi ctx p5) n5 p7 w7 evs7 heq2
      simp only [rrPost_eq]
      refine ⟨?_, ?_, ?_, ?_, ?_, ?_, ?_⟩
      · rw [h7run, rrSetCi_runID, h5run, hp4run]
      · rw [h7dt, rrSetCi_dateTime, h5dt, hp4dt]
      · rw [h7arch, rrSetCi_arch, h5arch, hp4arch]
      · rw [h7os, rrSetCi_os, h5os, hp4os]
      · intro huid
        rw [h7u, rrSetCi_userId, (h5skip (by rw [hp4u]; exact huid)).1, hp4u]
      · intro hpid
        have h77 := h7skip (by
          rw [rrSetCi_projectId, h5pid, hp4pid]; exact hpid)
        rw [h77.1, rrSetCi_projectId, h5pid, hp4pid]
      · intro hrun hdt harch hos huid hpid hcip
        have h4p : p4 = p := by
          rw [← hp4]
          simp [rrDefaultOs_eq, rrDefaultArch_eq, rrDefaultDateTime_eq,
            rrDefaultRunID_eq, hrun, hdt, harch, hos]
        have h5p : p5 = p4 := (h5skip (by rw [hp4u]; exact huid)).1
        have h6p : rrSetCi ctx p5 = p := by
          rw [h5p, h4p]
          cases hci : truthy ctx.ciDetect with
          | false => exact rrSetCi_skip ctx p hci
          | true => rw [rrSetCi_eq, if_pos hci, ← hcip hci]
        have h77 := h7skip (by rw [h6p]; exact hpid)
        rw [h77.1, h6p]

end Checkpoint

namespace Checkpoint

/-- Claim C1 (amended) witness: the sendTelemetry-shaped record, which has
neither userId nor ci. -/
theorem reportRequest_fresh_userId_ci_exclusive_witness :
    sampleParams.userId = none ∧ sampleParams.ci = none ∧
    ¬((ReportRequest sampleCtx emptyWorld sampleParams).2.1.userId.isSome = true ∧
      (ReportRequest sampleCtx emptyWorld sampleParams).2.1.ci.isSome = true) :=
  ⟨rfl, rfl,
   reportRequest_fresh_userId_ci_exclusive sampleCtx emptyWorld sampleParams
     rfl rfl⟩

/-- Claim C7 witness: re-running defaulting on a fully truthy-populated
record (no CI detected) returns it unchanged. -/
theorem reportRequest_defaulting_fill_rules_witness :
    truthy sampleCtx.checkpointDisable = false ∧
    truthy fullParams.runID = true ∧ fullParams.dateTime.isSome = true ∧
    truthy fullParams.arch = true ∧ truthy fullParams.os = true ∧
    truthy fullParams.userId = true ∧ truthy fullParams.projectId = true ∧
    (ReportRequest sampleCtx emptyWorld fullParams).2.1 = fullParams :=
  ⟨rfl, rfl, rfl, rfl, rfl, rfl, rfl,
   (reportRequest_defaulting_fill_rules sampleCtx emptyWorld fullParams
      rfl).2.2.2.2.2.2 rfl rfl rfl rfl rfl rfl
     (fun h => absurd h (by decide))⟩

end Checkpoint
